import Mathlib

/-!
# Thermocouple multiplexer configuration (`ArduinoCode/main/config.h`)

A shallow embedding of the configuration header of the eight-sensor MCP9600 /
TCA9548A data-acquisition sketch, and of the poll cycle that consumes it. The
poll cycle threads a state whose trace records every command sent to the
multiplexer and to the chip, so that what is selected and read is observable.

* Every `const T NAME = v;` of the header becomes a `ConstDecl` carrying the
  declared C type and the initialiser; its stored value is the initialiser
  reduced modulo `2 ^ width`.
* Every `const T NAME[SENSOR_COUNT] = { ... };` becomes the list of its brace
  initialisers, in source order. Indexing is `xs[i]?`, so an index outside the
  table is `none` rather than an arbitrary value.
* Unsigned machine arithmetic is `Nat` arithmetic with an explicit
  `% 2 ^ w`.
-/

namespace ThermoConfig

/-! ## C types used by the header -/

/-- The fixed-width unsigned integer types that occur in `config.h`. -/
inductive CUInt where
  | uint8_t
  | uint16_t
  deriving DecidableEq, Repr

/-- Number of bits of a fixed-width unsigned type. -/
def CUInt.width : CUInt → Nat
  | .uint8_t => 8
  | .uint16_t => 16

/-- A scalar declaration `const T NAME = init;`. -/
structure ConstDecl where
  ctype : CUInt
  init : Nat
  deriving DecidableEq, Repr

/-- The value an object of unsigned type holds after initialisation: the
initialiser converted to the declared type, i.e. reduced modulo `2 ^ width`. -/
def ConstDecl.value (d : ConstDecl) : Nat :=
  d.init % 2 ^ d.ctype.width

/-- An array declaration `const T NAME[...] = { init... };` of an unsigned
integer element type. -/
structure UIntArrayDecl where
  ctype : CUInt
  init : List Nat
  deriving DecidableEq, Repr

/-- The elements of the array object, each initialiser converted to the element
type. -/
def UIntArrayDecl.elems (a : UIntArrayDecl) : List Nat :=
  a.init.map (fun v => v % 2 ^ a.ctype.width)

/-- Unsigned multiplication in `w` bits. -/
def umul (w a b : Nat) : Nat :=
  (a * b) % 2 ^ w

/-- Unsigned subtraction in `w` bits (wraps around below zero). -/
def usub (w a b : Nat) : Nat :=
  (a % 2 ^ w + (2 ^ w - b % 2 ^ w)) % 2 ^ w

/-! ## Enumerations of the MCP9600 driver

`config.h` includes `Adafruit_MCP9600.h` and uses two of its enumerations. That
header belongs to the external Adafruit driver library and is not part of this
repository. -/

/-- Modelled from the spec: the enumeration `MCP9600_ThemocoupleType` is declared
in the external driver header `Adafruit_MCP9600.h`, which is not among the
sources of this repository.
The spec calls it an "enumerated value identifying thermocouple wire material
(e.g. K-type, T-type)"; the enumerators are those of the driver, of which
`config.h` names `MCP9600_TYPE_K` and `MCP9600_TYPE_T`. -/
inductive MCP9600_ThemocoupleType where
  | MCP9600_TYPE_K
  | MCP9600_TYPE_J
  | MCP9600_TYPE_T
  | MCP9600_TYPE_N
  | MCP9600_TYPE_S
  | MCP9600_TYPE_E
  | MCP9600_TYPE_B
  | MCP9600_TYPE_R
  deriving DecidableEq, Repr

/-- Modelled from the spec: the enumeration `MCP9600_ADCResolution` is declared
in the external driver header `Adafruit_MCP9600.h`, which is not among the
sources of this repository.
The spec calls it an "enumerated value controlling conversion bit-depth/time
trade-off"; the enumerators are those of the driver, of which `config.h` names
`MCP9600_ADCRESOLUTION_12`. -/
inductive MCP9600_ADCResolution where
  | MCP9600_ADCRESOLUTION_18
  | MCP9600_ADCRESOLUTION_16
  | MCP9600_ADCRESOLUTION_14
  | MCP9600_ADCRESOLUTION_12
  deriving DecidableEq, Repr

/-- Conversion bit depth named by an ADC resolution enumerator. -/
def MCP9600_ADCResolution.bits : MCP9600_ADCResolution → Nat
  | .MCP9600_ADCRESOLUTION_18 => 18
  | .MCP9600_ADCRESOLUTION_16 => 16
  | .MCP9600_ADCRESOLUTION_14 => 14
  | .MCP9600_ADCRESOLUTION_12 => 12

open MCP9600_ThemocoupleType MCP9600_ADCResolution

/-! ## The configuration (`config.h`) -/

/-- Line 7: `#define BAUDRATE 115200`. -/
def BAUDRATE : Nat := 115200

/-- Line 12: `const uint8_t SENSOR_COUNT = 8;`. -/
def SENSOR_COUNT : ConstDecl := ⟨.uint8_t, 8⟩

/-- Lines 17-26: `const uint8_t SENSOR_CHANNEL[SENSOR_COUNT] = { 4, 5, 6, 7, 0, 1, 2, 3 };`
The source comments beside the entries read "Sensor i on channel i". -/
def SENSOR_CHANNEL : UIntArrayDecl := ⟨.uint8_t, [4, 5, 6, 7, 0, 1, 2, 3]⟩

/-- Lines 31-40: `const MCP9600_ThemocoupleType SENSOR_TC_TYPE[SENSOR_COUNT]`. -/
def SENSOR_TC_TYPE : List MCP9600_ThemocoupleType :=
  [MCP9600_TYPE_K, MCP9600_TYPE_K, MCP9600_TYPE_K, MCP9600_TYPE_K,
   MCP9600_TYPE_T, MCP9600_TYPE_T, MCP9600_TYPE_T, MCP9600_TYPE_T]

/-- Lines 45-54: `const MCP9600_ADCResolution SENSOR_ADC[SENSOR_COUNT]`. -/
def SENSOR_ADC : List MCP9600_ADCResolution :=
  [MCP9600_ADCRESOLUTION_12, MCP9600_ADCRESOLUTION_12,
   MCP9600_ADCRESOLUTION_12, MCP9600_ADCRESOLUTION_12,
   MCP9600_ADCRESOLUTION_12, MCP9600_ADCRESOLUTION_12,
   MCP9600_ADCRESOLUTION_12, MCP9600_ADCRESOLUTION_12]

/-- Line 59: `const uint8_t CHANNEL_SWITCH_DELAY_MS = 5;`. -/
def CHANNEL_SWITCH_DELAY_MS : ConstDecl := ⟨.uint8_t, 5⟩

/-- Line 64: `const uint16_t READ_INTERVAL_MS = 1000;`. -/
def READ_INTERVAL_MS : ConstDecl := ⟨.uint16_t, 1000⟩

/-- Line 69: `const uint8_t TCA_ADDRESS = 0x70;`. -/
def TCA_ADDRESS : ConstDecl := ⟨.uint8_t, 0x70⟩

/-- Line 74: `const uint8_t MCP9600_ADDRESS = 0x67;`. -/
def MCP9600_ADDRESS : ConstDecl := ⟨.uint8_t, 0x67⟩

/-! ## The poll cycle -/

/-- Modelled from the spec: the per-sensor error kinds of the poll cycle
(spec section 7); the polling sketch itself is not among the available sources. -/
inductive PollError where
  | BusError
  | SensorReadError
  deriving DecidableEq, Repr

/-- Modelled from the spec: the answers of the two external collaborators of the
poll cycle (spec section 6), which are not among the available sources.
`selectChannel address channel` tells whether the multiplexer at `address`
acknowledged the command to activate `channel`; `readTemperature address channel
type resolution` is the sample of the chip at `address` behind the multiplexer
channel `channel`, or `none` when that chip is not ready or does not
acknowledge. -/
structure Drivers where
  selectChannel : Nat → Nat → Bool
  readTemperature : Nat → Nat → MCP9600_ThemocoupleType → MCP9600_ADCResolution → Option Int

/-- Modelled from the spec: what the poll cycle emits for one visited sensor,
`(sensorIndex, temperature, timestamp)` or the error of that sensor (spec
section 4.1, step 4). -/
structure Reading where
  sensorIndex : Nat
  outcome : Except PollError Int
  timestamp : Nat

/-- Modelled from the spec: the observable actions of a poll cycle, one per step
of spec section 4.1: the channel-select command sent to the multiplexer, the
settling wait, the read request sent to the chip, and the emitted result. -/
inductive BusEvent where
  | select (address channel : Nat)
  | settle (ms : Nat)
  | read (address : Nat) (type : MCP9600_ThemocoupleType) (resolution : MCP9600_ADCResolution)
  | emit (r : Reading)

/-- Modelled from the spec: the state threaded through a poll cycle, namely the
simulated clock in milliseconds, the channel currently active on the
multiplexer, and the actions performed so far, oldest first. -/
structure PollState where
  clock : Nat
  active : Option Nat
  trace : List BusEvent

/-- Modelled from the spec: step 1 of spec section 4.1. Send the command to
activate `channel` to the multiplexer at `address`; the command is recorded, and
when it is acknowledged `channel` becomes the only active channel. Returns the
acknowledgement and the new state. -/
def muxSelect (d : Drivers) (address channel : Nat) (s : PollState) : Bool × PollState :=
  let ack := d.selectChannel address channel
  (ack, ⟨s.clock, if ack then some channel else s.active,
    s.trace ++ [BusEvent.select address channel]⟩)

/-- Modelled from the spec: step 2 of spec section 4.1, a timed wait of `ms`
milliseconds. -/
def settle (ms : Nat) (s : PollState) : PollState :=
  ⟨s.clock + ms, s.active, s.trace ++ [BusEvent.settle ms]⟩

/-- Modelled from the spec: step 3 of spec section 4.1. Send a read request to
the chip at `address`; all chips share that address, so the one that answers is
the chip behind the channel active on the multiplexer. -/
def chipRead (d : Drivers) (address : Nat) (ty : MCP9600_ThemocoupleType)
    (res : MCP9600_ADCResolution) (s : PollState) : Option Int × PollState :=
  (match s.active with
    | some ch => d.readTemperature address ch ty res
    | none => none,
   ⟨s.clock, s.active, s.trace ++ [BusEvent.read address ty res]⟩)

/-- Modelled from the spec: step 4 of spec section 4.1, emit the result of
sensor `i`, stamped with the current clock. -/
def emit (i : Nat) (outcome : Except PollError Int) (s : PollState) : PollState :=
  ⟨s.clock, s.active, s.trace ++ [BusEvent.emit ⟨i, outcome, s.clock⟩]⟩

/-- Modelled from the spec: steps 1-4 of spec section 4.1 for sensor index `i`;
the polling sketch is not among the available sources. Select
`SENSOR_CHANNEL[i]` on the multiplexer (a missing acknowledgement is a
`BusError` and the sensor is skipped for this cycle), wait
`CHANNEL_SWITCH_DELAY_MS`, read the chip with the type and resolution of sensor
`i` (`SensorReadError` on failure), and emit the result. An error never stops
the cycle. The result is `none` when `i` is outside one of the tables, where the
array access of the sketch has no defined value. -/
def pollSensor (d : Drivers) (i : Nat) (s : PollState) : Option PollState :=
  match SENSOR_CHANNEL.elems[i]?, SENSOR_TC_TYPE[i]?, SENSOR_ADC[i]? with
  | some ch, some ty, some res =>
    let sel := muxSelect d TCA_ADDRESS.value ch s
    if sel.1 then
      let rd := chipRead d MCP9600_ADDRESS.value ty res
        (settle CHANNEL_SWITCH_DELAY_MS.value sel.2)
      match rd.1 with
      | some temp => some (emit i (.ok temp) rd.2)
      | none => some (emit i (.error .SensorReadError) rd.2)
    else
      some (emit i (.error .BusError) sel.2)
  | _, _, _ => none

/-- Modelled from the spec: the loop "for each sensor index `i` in order
`0..SENSOR_COUNT-1`" of spec section 4.1, started at index `i`. -/
def pollLoop (d : Drivers) (i : Nat) (s : PollState) : Option PollState :=
  if i < SENSOR_COUNT.value then
    match pollSensor d i s with
    | some s1 => pollLoop d (i + 1) s1
    | none => none
  else some s
termination_by SENSOR_COUNT.value - i

/-- Modelled from the spec: one poll cycle started at time `start` (spec section
4.1): poll every sensor, starting with no channel active, then suspend until
`READ_INTERVAL_MS` has elapsed since the cycle started. -/
def pollCycle (d : Drivers) (start : Nat) : Option PollState :=
  (pollLoop d 0 ⟨start, none, []⟩).map fun s =>
    ⟨max s.clock (start + READ_INTERVAL_MS.value), s.active, s.trace⟩

/-- The channel-select command an action sends to the multiplexer, if it is
one: `(address, channel)`. -/
def BusEvent.selected : BusEvent → Option (Nat × Nat)
  | .select address channel => some (address, channel)
  | _ => none

/-- The reading an action emits, if it is an emission. -/
def BusEvent.emitted : BusEvent → Option Reading
  | .emit r => some r
  | _ => none

/-- The two actions that delimit the visit of a sensor: the channel-select
command that opens it and the emission that closes it. -/
inductive VisitMark where
  | selected (address channel : Nat)
  | emitted (sensorIndex : Nat)
  deriving DecidableEq, Repr

/-- The visit mark of an action, if it opens or closes a visit. -/
def BusEvent.mark : BusEvent → Option VisitMark
  | .select address channel => some (.selected address channel)
  | .emit r => some (.emitted r.sensorIndex)
  | _ => none

/-! ## Sanity checks of the embedding -/

example : SENSOR_COUNT.value = 8 := by decide
example : SENSOR_CHANNEL.elems = [4, 5, 6, 7, 0, 1, 2, 3] := by decide
example : TCA_ADDRESS.value = 112 ∧ MCP9600_ADDRESS.value = 103 := by decide
example : umul 8 200 2 = 144 := by decide
example : usub 16 40 1000 = 64576 := by decide

/-! ## Auxiliary lemmas -/

theorem count_value : SENSOR_COUNT.value = 8 := by decide

theorem channel_length : SENSOR_CHANNEL.elems.length = 8 := by decide

/-- Polling a sensor whose table rows are `ch`, `ty`, `res` succeeds and appends
one visit to the trace: the select command for `ch`, then the emission for `i`
with the outcome the drivers give for `ch`, `ty`, `res`. -/
theorem pollSensor_trace (d : Drivers) (i : Nat) (s : PollState) (ch : Nat)
    (ty : MCP9600_ThemocoupleType) (res : MCP9600_ADCResolution)
    (hch : SENSOR_CHANNEL.elems[i]? = some ch) (hty : SENSOR_TC_TYPE[i]? = some ty)
    (hres : SENSOR_ADC[i]? = some res) :
    ∃ s1, pollSensor d i s = some s1 ∧
      s1.trace.filterMap BusEvent.mark = s.trace.filterMap BusEvent.mark ++
        [VisitMark.selected TCA_ADDRESS.value ch, VisitMark.emitted i] ∧
      s1.trace.filterMap BusEvent.selected = s.trace.filterMap BusEvent.selected ++
        [(TCA_ADDRESS.value, ch)] ∧
      (s1.trace.filterMap BusEvent.emitted).map Reading.sensorIndex
        = (s.trace.filterMap BusEvent.emitted).map Reading.sensorIndex ++ [i] ∧
      (s1.trace.filterMap BusEvent.emitted).map Reading.outcome
        = (s.trace.filterMap BusEvent.emitted).map Reading.outcome ++
          [if d.selectChannel TCA_ADDRESS.value ch = true then
            match d.readTemperature MCP9600_ADDRESS.value ch ty res with
            | some temp => Except.ok temp
            | none => Except.error PollError.SensorReadError
          else Except.error PollError.BusError] := by
  unfold pollSensor
  rw [hch, hty, hres]
  simp only [muxSelect, chipRead, settle, emit]
  cases hs : d.selectChannel TCA_ADDRESS.value ch
  · simp [BusEvent.mark, BusEvent.selected, BusEvent.emitted]
  · cases hr : d.readTemperature MCP9600_ADDRESS.value ch ty res <;>
      simp [hr, BusEvent.mark, BusEvent.selected, BusEvent.emitted]

/-- Every index below 8 has a row in each of the three tables. -/
theorem table_rows (i : Nat) (hi : i < 8) :
    SENSOR_CHANNEL.elems[i]? = some (SENSOR_CHANNEL.elems.getD i 0) ∧
    SENSOR_TC_TYPE[i]? = some (SENSOR_TC_TYPE.getD i MCP9600_TYPE_K) ∧
    SENSOR_ADC[i]? = some (SENSOR_ADC.getD i MCP9600_ADCRESOLUTION_12) := by
  interval_cases i <;> exact ⟨rfl, rfl, rfl⟩

theorem pollLoop_unfold (d : Drivers) (i : Nat) (s : PollState) :
    pollLoop d i s
      = if i < SENSOR_COUNT.value then
          match pollSensor d i s with
          | some s1 => pollLoop d (i + 1) s1
          | none => none
        else some s := by
  rw [pollLoop]

/-- The loop started at index `i` with `n` sensors left succeeds and appends the
visits of the sensors `i, i+1, ..., 7`, in that order. -/
theorem pollLoop_trace (d : Drivers) (n : Nat) : ∀ (i : Nat) (s : PollState), i + n = 8 →
    ∃ s1, pollLoop d i s = some s1 ∧
      s1.trace.filterMap BusEvent.mark = s.trace.filterMap BusEvent.mark ++
        (List.range' i n).flatMap (fun k =>
          [VisitMark.selected TCA_ADDRESS.value (SENSOR_CHANNEL.elems.getD k 0),
           VisitMark.emitted k]) ∧
      s1.trace.filterMap BusEvent.selected = s.trace.filterMap BusEvent.selected ++
        (List.range' i n).map (fun k => (TCA_ADDRESS.value, SENSOR_CHANNEL.elems.getD k 0)) ∧
      (s1.trace.filterMap BusEvent.emitted).map Reading.sensorIndex
        = (s.trace.filterMap BusEvent.emitted).map Reading.sensorIndex ++ List.range' i n ∧
      (s1.trace.filterMap BusEvent.emitted).map Reading.outcome
        = (s.trace.filterMap BusEvent.emitted).map Reading.outcome ++
          (List.range' i n).map (fun k =>
            if d.selectChannel TCA_ADDRESS.value (SENSOR_CHANNEL.elems.getD k 0) = true then
              match d.readTemperature MCP9600_ADDRESS.value (SENSOR_CHANNEL.elems.getD k 0)
                  (SENSOR_TC_TYPE.getD k MCP9600_TYPE_K)
                  (SENSOR_ADC.getD k MCP9600_ADCRESOLUTION_12) with
              | some temp => Except.ok temp
              | none => Except.error PollError.SensorReadError
            else Except.error PollError.BusError) := by
  induction n with
  | zero =>
    intro i s h
    have hi : i = 8 := by omega
    subst hi
    refine ⟨s, ?_, ?_, ?_, ?_, ?_⟩
    · rw [pollLoop_unfold, if_neg (by rw [count_value]; decide)]
    all_goals simp
  | succ n ih =>
    intro i s h
    have hi : i < 8 := by omega
    obtain ⟨hch, hty, hres⟩ := table_rows i hi
    obtain ⟨s1, hs1, hm1, hsel1, hidx1, hout1⟩ := pollSensor_trace d i s _ _ _ hch hty hres
    obtain ⟨s2, hs2, hm2, hsel2, hidx2, hout2⟩ := ih (i + 1) s1 (by omega)
    refine ⟨s2, ?_, ?_, ?_, ?_, ?_⟩
    · rw [pollLoop_unfold, if_pos (by rw [count_value]; exact hi), hs1]
      exact hs2
    · rw [hm2, hm1, List.range'_succ, List.flatMap_cons, List.append_assoc]
    · rw [hsel2, hsel1, List.range'_succ, List.map_cons, List.append_assoc]
      rfl
    · rw [hidx2, hidx1, List.range'_succ, List.append_assoc]
      rfl
    · rw [hout2, hout1, List.range'_succ, List.map_cons, List.append_assoc]
      rfl

/-! ## The claims -/

/-- Claim C1: the channels of the configured sensors are pairwise distinct. For
sensor indices `i ≠ j` below `SENSOR_COUNT`, both table entries exist and they
differ. -/
theorem sensor_channel_pairwise_distinct (i j : Nat) (hi : i < SENSOR_COUNT.value)
    (hj : j < SENSOR_COUNT.value) (hij : i ≠ j) :
    SENSOR_CHANNEL.elems[i]?.isSome ∧ SENSOR_CHANNEL.elems[j]?.isSome ∧
      SENSOR_CHANNEL.elems[i]? ≠ SENSOR_CHANNEL.elems[j]? := by
  have key : ∀ a, a < SENSOR_COUNT.value → ∀ b, b < SENSOR_COUNT.value → a ≠ b →
      (SENSOR_CHANNEL.elems[a]?.isSome ∧ SENSOR_CHANNEL.elems[b]?.isSome ∧
        SENSOR_CHANNEL.elems[a]? ≠ SENSOR_CHANNEL.elems[b]?) := by decide
  exact key i hi j hj hij

theorem sensor_channel_pairwise_distinct_witness :
    SENSOR_CHANNEL.elems[0]?.isSome ∧ SENSOR_CHANNEL.elems[4]?.isSome ∧
      SENSOR_CHANNEL.elems[0]? ≠ SENSOR_CHANNEL.elems[4]? :=
  sensor_channel_pairwise_distinct 0 4 (by decide) (by decide) (by decide)

/-- Claim C2: every configured channel lies in the range `0..7` of the
multiplexer. For every sensor index `i` below `SENSOR_COUNT` the entry exists
and is between `0` and `7`. -/
theorem sensor_channel_in_range (i : Nat) (hi : i < SENSOR_COUNT.value) :
    ∃ c, SENSOR_CHANNEL.elems[i]? = some c ∧ 0 ≤ c ∧ c ≤ 7 := by
  rw [count_value] at hi
  interval_cases i <;> exact ⟨_, rfl, by decide, by decide⟩

theorem sensor_channel_in_range_witness :
    ∃ c, SENSOR_CHANNEL.elems[3]? = some c ∧ 0 ≤ c ∧ c ≤ 7 :=
  sensor_channel_in_range 3 (by decide)

/-- Claim C3, evaluated on the code: the entry of sensor 0 is channel 4, not the
channel 0 of the source comment, and in fact no sensor index `i` in `0..7` has
`SENSOR_CHANNEL[i] = i`. -/
theorem sensor_channel_not_identity :
    SENSOR_CHANNEL.elems[0]? = some 4 ∧ SENSOR_CHANNEL.elems[0]? ≠ some 0 ∧
      ∀ i, i < 8 → SENSOR_CHANNEL.elems[i]? ≠ some i := by
  decide

/-- Claim C4: the thermocouple type is K for the sensors `0..3` and T for the
sensors `4..7`, and the ADC resolution of every sensor `0..7` is the 12-bit
one. -/
theorem sensor_type_and_resolution (i : Nat) (hi : i ≤ 7) :
    (i ≤ 3 → SENSOR_TC_TYPE[i]? = some MCP9600_TYPE_K) ∧
    (4 ≤ i → SENSOR_TC_TYPE[i]? = some MCP9600_TYPE_T) ∧
    SENSOR_ADC[i]? = some MCP9600_ADCRESOLUTION_12 ∧
    (SENSOR_ADC[i]?.map MCP9600_ADCResolution.bits) = some 12 := by
  have key : ∀ a, a < 8 →
      ((a ≤ 3 → SENSOR_TC_TYPE[a]? = some MCP9600_TYPE_K) ∧
       (4 ≤ a → SENSOR_TC_TYPE[a]? = some MCP9600_TYPE_T) ∧
       SENSOR_ADC[a]? = some MCP9600_ADCRESOLUTION_12 ∧
       (SENSOR_ADC[a]?.map MCP9600_ADCResolution.bits) = some 12) := by decide
  exact key i (by omega)

theorem sensor_type_and_resolution_witness :
    (4 ≤ 3 → SENSOR_TC_TYPE[4]? = some MCP9600_TYPE_K) ∧
    (4 ≤ 4 → SENSOR_TC_TYPE[4]? = some MCP9600_TYPE_T) ∧
    SENSOR_ADC[4]? = some MCP9600_ADCRESOLUTION_12 ∧
    (SENSOR_ADC[4]?.map MCP9600_ADCResolution.bits) = some 12 :=
  sensor_type_and_resolution 4 (by decide)

/-- Claim C5: `SENSOR_COUNT` is 8, each of the three per-sensor arrays has
exactly `SENSOR_COUNT` entries, every index below `SENSOR_COUNT` is defined in
all three, and no index from `SENSOR_COUNT` on is defined in any of them. -/
theorem sensor_arrays_aligned :
    SENSOR_COUNT.value = 8 ∧
    SENSOR_CHANNEL.elems.length = SENSOR_COUNT.value ∧
    SENSOR_TC_TYPE.length = SENSOR_COUNT.value ∧
    SENSOR_ADC.length = SENSOR_COUNT.value ∧
    (∀ i, i < SENSOR_COUNT.value →
      SENSOR_CHANNEL.elems[i]?.isSome ∧ SENSOR_TC_TYPE[i]?.isSome ∧ SENSOR_ADC[i]?.isSome) ∧
    (∀ i, SENSOR_COUNT.value ≤ i →
      SENSOR_CHANNEL.elems[i]? = none ∧ SENSOR_TC_TYPE[i]? = none ∧ SENSOR_ADC[i]? = none) := by
  refine ⟨by decide, by decide, by decide, by decide, by decide, ?_⟩
  intro i hi
  rw [count_value] at hi
  refine ⟨?_, ?_, ?_⟩ <;> apply List.getElem?_eq_none
  · rw [channel_length]
    exact hi
  · exact hi
  · exact hi

theorem sensor_arrays_aligned_witness :
    (SENSOR_CHANNEL.elems[7]?.isSome ∧ SENSOR_TC_TYPE[7]?.isSome ∧ SENSOR_ADC[7]?.isSome) ∧
    (SENSOR_CHANNEL.elems[8]? = none ∧ SENSOR_TC_TYPE[8]? = none ∧ SENSOR_ADC[8]? = none) :=
  ⟨sensor_arrays_aligned.2.2.2.2.1 7 (by decide), sensor_arrays_aligned.2.2.2.2.2 8 (by decide)⟩

/-- Claim C6 as stated fails: the channel-switch delay is not a 16-bit value,
`CHANNEL_SWITCH_DELAY_MS` is declared `uint8_t`. -/
theorem scalar_widths_as_stated_fail :
    ¬ (CHANNEL_SWITCH_DELAY_MS.ctype.width = 16 ∧ READ_INTERVAL_MS.ctype.width = 16 ∧
       TCA_ADDRESS.ctype.width = 8 ∧ MCP9600_ADDRESS.ctype.width = 8 ∧
       SENSOR_CHANNEL.ctype.width = 8) := by
  decide

/-- Claim C6, amended: the channel-switch delay is an 8-bit unsigned value, the
read interval is a 16-bit unsigned value, the multiplexer address, the chip
address and the channel entries are 8-bit unsigned values; every initialiser
fits its declared type, so no value is truncated. -/
theorem scalar_widths :
    CHANNEL_SWITCH_DELAY_MS.ctype = CUInt.uint8_t ∧ CHANNEL_SWITCH_DELAY_MS.ctype.width = 8 ∧
    READ_INTERVAL_MS.ctype = CUInt.uint16_t ∧ READ_INTERVAL_MS.ctype.width = 16 ∧
    TCA_ADDRESS.ctype = CUInt.uint8_t ∧ TCA_ADDRESS.ctype.width = 8 ∧
    MCP9600_ADDRESS.ctype = CUInt.uint8_t ∧ MCP9600_ADDRESS.ctype.width = 8 ∧
    SENSOR_CHANNEL.ctype = CUInt.uint8_t ∧ SENSOR_CHANNEL.ctype.width = 8 ∧
    CHANNEL_SWITCH_DELAY_MS.value = 5 ∧ CHANNEL_SWITCH_DELAY_MS.value < 2 ^ 8 ∧
    READ_INTERVAL_MS.value = 1000 ∧ READ_INTERVAL_MS.value < 2 ^ 16 ∧
    TCA_ADDRESS.value = 0x70 ∧ TCA_ADDRESS.value < 2 ^ 8 ∧
    MCP9600_ADDRESS.value = 0x67 ∧ MCP9600_ADDRESS.value < 2 ^ 8 ∧
    SENSOR_CHANNEL.elems = SENSOR_CHANNEL.init ∧ (∀ c ∈ SENSOR_CHANNEL.elems, c < 2 ^ 8) := by
  decide

/-- Claim C7: a poll cycle driven by this configuration, whatever the drivers
answer and whenever it starts, runs to completion and visits the sensor indices
`0..SENSOR_COUNT-1` in increasing order, each exactly once. The select commands
sent to the multiplexer are, in order, those for `SENSOR_CHANNEL[0]`, ...,
`SENSOR_CHANNEL[7]`; the select command for `SENSOR_CHANNEL[i]` is followed by
the emission for sensor `i` before the next select command; and the outcome
emitted for sensor `i` is the answer of the drivers for channel
`SENSOR_CHANNEL[i]` with the type and resolution of row `i`. -/
theorem poll_cycle_visits_in_order (d : Drivers) (start : Nat) :
    ∃ s, pollCycle d start = some s ∧
      (s.trace.filterMap BusEvent.emitted).map Reading.sensorIndex
        = List.range SENSOR_COUNT.value ∧
      (∀ i, i < SENSOR_COUNT.value →
        ((s.trace.filterMap BusEvent.emitted).map Reading.sensorIndex).count i = 1) ∧
      s.trace.filterMap BusEvent.selected
        = SENSOR_CHANNEL.elems.map (fun ch => (TCA_ADDRESS.value, ch)) ∧
      s.trace.filterMap BusEvent.mark
        = (List.zip SENSOR_CHANNEL.elems (List.range SENSOR_COUNT.value)).flatMap (fun p =>
            [VisitMark.selected TCA_ADDRESS.value p.1, VisitMark.emitted p.2]) ∧
      (s.trace.filterMap BusEvent.emitted).map Reading.outcome
        = (List.zip SENSOR_CHANNEL.elems (List.zip SENSOR_TC_TYPE SENSOR_ADC)).map (fun row =>
            if d.selectChannel TCA_ADDRESS.value row.1 = true then
              match d.readTemperature MCP9600_ADDRESS.value row.1 row.2.1 row.2.2 with
              | some temp => Except.ok temp
              | none => Except.error PollError.SensorReadError
            else Except.error PollError.BusError) := by
  obtain ⟨s1, hs1, hm, hsel, hidx, hout⟩ := pollLoop_trace d 8 0 ⟨start, none, []⟩ rfl
  have hrange : (s1.trace.filterMap BusEvent.emitted).map Reading.sensorIndex
      = List.range SENSOR_COUNT.value := by
    rw [hidx]
    rfl
  refine ⟨⟨max s1.clock (start + READ_INTERVAL_MS.value), s1.active, s1.trace⟩, ?_,
    hrange, ?_, ?_, ?_, ?_⟩
  · simp only [pollCycle, hs1, Option.map_some']
  · show ∀ i, i < SENSOR_COUNT.value →
      ((s1.trace.filterMap BusEvent.emitted).map Reading.sensorIndex).count i = 1
    rw [hrange]
    decide
  · show s1.trace.filterMap BusEvent.selected = _
    rw [hsel]
    rfl
  · show s1.trace.filterMap BusEvent.mark = _
    rw [hm]
    rfl
  · show (s1.trace.filterMap BusEvent.emitted).map Reading.outcome = _
    rw [hout]
    rfl

theorem poll_cycle_visits_in_order_witness :
    ∃ s, pollCycle ⟨fun _ c => decide (c ≠ 7), fun _ c _ _ => if c = 1 then none else some 25⟩
        0 = some s ∧
      s.trace.filterMap BusEvent.selected
        = [(112, 4), (112, 5), (112, 6), (112, 7), (112, 0), (112, 1), (112, 2), (112, 3)] ∧
      (s.trace.filterMap BusEvent.emitted).map Reading.sensorIndex
        = [0, 1, 2, 3, 4, 5, 6, 7] := by
  obtain ⟨s, h, hidx, _, hsel, _, _⟩ := poll_cycle_visits_in_order
    ⟨fun _ c => decide (c ≠ 7), fun _ c _ _ => if c = 1 then none else some 25⟩ 0
  exact ⟨s, h, hsel, hidx⟩

/-- Claim C8: the channel table is the rotation by four, `SENSOR_CHANNEL[i] =
(i + 4) mod 8` for every `i` in `0..7`; every channel `c` in `0..7` is the entry
of exactly one sensor index; and applying the table twice returns the index. -/
theorem sensor_channel_rotation :
    (∀ i, i < 8 → SENSOR_CHANNEL.elems[i]? = some ((i + 4) % 8)) ∧
    (∀ c, c < 8 → ∃! i : Nat, SENSOR_CHANNEL.elems[i]? = some c) ∧
    (∀ i, i < 8 → ∃ c, SENSOR_CHANNEL.elems[i]? = some c ∧
      SENSOR_CHANNEL.elems[c]? = some i) := by
  have hrot : ∀ i, i < 8 → SENSOR_CHANNEL.elems[i]? = some ((i + 4) % 8) := by decide
  refine ⟨hrot, ?_, ?_⟩
  · intro c hc
    refine ⟨(c + 4) % 8, ?_, ?_⟩
    · show SENSOR_CHANNEL.elems[(c + 4) % 8]? = some c
      rw [hrot _ (Nat.mod_lt _ (by decide))]
      congr 1
      omega
    · intro j hj
      have hj8 : j < 8 := by
        by_contra hge
        have hnone : SENSOR_CHANNEL.elems[j]? = none := by
          apply List.getElem?_eq_none
          rw [channel_length]
          omega
        rw [hnone] at hj
        exact Option.noConfusion hj
      rw [hrot j hj8] at hj
      have := Option.some.inj hj
      omega
  · intro i hi
    refine ⟨(i + 4) % 8, hrot i hi, ?_⟩
    rw [hrot _ (Nat.mod_lt _ (by decide))]
    congr 1
    omega

theorem sensor_channel_rotation_witness :
    SENSOR_CHANNEL.elems[5]? = some ((5 + 4) % 8) :=
  sensor_channel_rotation.1 5 (by decide)

/-- Claim C9: the settling delays of one cycle fit inside the read interval.
`SENSOR_COUNT * CHANNEL_SWITCH_DELAY_MS` is 40 in 8-bit unsigned arithmetic and
equals the exact product (no overflow, 40 < 256); it is strictly below
`READ_INTERVAL_MS`; and `READ_INTERVAL_MS` minus it is 960 in 16-bit unsigned
arithmetic, equal to the exact integer difference (no underflow). -/
theorem settling_fits_read_interval :
    umul 8 SENSOR_COUNT.value CHANNEL_SWITCH_DELAY_MS.value = 40 ∧
    umul 8 SENSOR_COUNT.value CHANNEL_SWITCH_DELAY_MS.value
      = SENSOR_COUNT.value * CHANNEL_SWITCH_DELAY_MS.value ∧
    SENSOR_COUNT.value * CHANNEL_SWITCH_DELAY_MS.value < 2 ^ 8 ∧
    umul 8 SENSOR_COUNT.value CHANNEL_SWITCH_DELAY_MS.value < READ_INTERVAL_MS.value ∧
    usub 16 READ_INTERVAL_MS.value
      (umul 8 SENSOR_COUNT.value CHANNEL_SWITCH_DELAY_MS.value) = 960 ∧
    ((usub 16 READ_INTERVAL_MS.value
      (umul 8 SENSOR_COUNT.value CHANNEL_SWITCH_DELAY_MS.value) : Nat) : Int)
      = (READ_INTERVAL_MS.value : Int)
        - ((SENSOR_COUNT.value * CHANNEL_SWITCH_DELAY_MS.value : Nat) : Int) := by
  decide

end ThermoConfig
